import Mathlib

/-
  Verification of the Device Resolution & Scene Composition Engine of the
  3d-network-topology-lab repository (Babylon.js network visualizer).

  The JavaScript sources are shallowly embedded: each Lean definition below
  mirrors one method of `DeviceManager` / `ConnectionManager` (or, where
  noted, is modelled from the specification because the method body is not
  among the source files).  Numbers that are exact in the source (small
  integers, halves, tenths) are modelled over `Int` / `Rat`, where the
  IEEE-754 arithmetic of the source is exact as well.
-/

namespace NetViz

/-! ## Auto-layout (`DeviceManager.autoPositionDevice`) -/

/-- `Math.ceil(Math.sqrt(index + 1))` from `autoPositionDevice`: the
ceiling of the square root of `index + 1`, i.e. the least `g` with
`index + 1 ≤ g * g`, computed exactly over `Nat` by bounded search (the
source uses floating point, which is exact on the small values involved;
`index + 1 ≤ (index + 1) * (index + 1)` always holds, so the search never
falls through to the default). -/
def gridSize (index : Nat) : Nat :=
  ((List.range (index + 2)).find? (fun g => index + 1 ≤ g * g)).getD (index + 1)

/-- `DeviceManager.autoPositionDevice` (DeviceManager.js lines 203-214):
`row = floor(index / gridSize)`, `col = index % gridSize`,
`x = (col - gridSize / 2) * spacing`, `z = (row - gridSize / 2) * spacing`,
`y = 1`, with `spacing = 4`.  Since `spacing = 4`, the coordinate
`(col - gridSize / 2) * 4` equals `4 * col - 2 * gridSize` exactly, which is
how it is written here over `Int` (the float arithmetic of the source is
exact on these values).  Returns `(x, y, z)`. -/
def autoPositionDevice (index : Nat) : Int × Int × Int :=
  let g := gridSize index
  let row := index / g
  let col := index % g
  ((col : Int) * 4 - (g : Int) * 2, 1, (row : Int) * 4 - (g : Int) * 2)

theorem gridSize_pos (index : Nat) : 0 < gridSize index := by
  unfold gridSize
  rcases h : (List.range (index + 2)).find? (fun g => index + 1 ≤ g * g) with - | g
  · simp [h]
  · have hp := List.find?_some h
    simp only [decide_eq_true_eq] at hp
    simp only [h, Option.getD_some]
    rcases Nat.eq_zero_or_pos g with rfl | hg
    · simp at hp
    · exact hg

/-- The auto-layout positions of the first `n` devices of a batch loaded
without explicit positions: device number `k` is placed at insertion index
`k` (`this.devices.size` at the time `autoPositionDevice` runs). -/
def autoLayoutPositions (n : Nat) : List (Int × Int × Int) :=
  (List.range n).map autoPositionDevice

/-- C1, counterexample: the claim says that for every batch of `N` devices
loaded without explicit positions the `N` auto-layout positions are pairwise
distinct.  This is false at `N = 5`: the grid size is recomputed per index,
so index `0` (grid size 1) and index `4` (grid size 3) both land at
`(-2, 1, -2)`. -/
theorem autoPosition_collision_in_batch_of_five :
    ¬ (autoLayoutPositions 5).Nodup ∧
      autoPositionDevice 0 = autoPositionDevice 4 := by decide

/-- C1, amended: two distinct insertion indices whose recomputed grid sizes
agree are assigned distinct positions by `autoPositionDevice` (row/column
are the quotient/remainder of the index by the common grid size, so the
`x`/`z` coordinates determine the index).  Across indices with different
grid sizes the claimed pairwise distinctness fails, as
`autoPosition_collision_in_batch_of_five` shows. -/
theorem autoPosition_distinct_of_eq_gridSize (i j : Nat) (hne : i ≠ j)
    (hg : gridSize i = gridSize j) :
    autoPositionDevice i ≠ autoPositionDevice j := by
  intro h
  simp only [autoPositionDevice, Prod.mk.injEq] at h
  obtain ⟨hx, -, hz⟩ := h
  rw [← hg] at hx hz
  have h1 : i % gridSize i = j % gridSize i := by
    have hcast : ((i % gridSize i : Nat) : Int) = ((j % gridSize i : Nat) : Int) := by
      linarith
    exact_mod_cast hcast
  have h2 : i / gridSize i = j / gridSize i := by
    have hcast : ((i / gridSize i : Nat) : Int) = ((j / gridSize i : Nat) : Int) := by
      linarith
    exact_mod_cast hcast
  have di := Nat.div_add_mod i (gridSize i)
  have dj := Nat.div_add_mod j (gridSize i)
  rw [h1, h2] at di
  exact hne (di.symm.trans dj)

/-- C1, witness for the amended statement at indices 1 and 2, which share
grid size 2. -/
theorem autoPosition_distinct_of_eq_gridSize_witness :
    autoPositionDevice 1 ≠ autoPositionDevice 2 :=
  autoPosition_distinct_of_eq_gridSize 1 2 (by decide) (by decide)

/-! ## Visibility filtering and labels
(`DeviceManager.filterByCategories`, `getVisibleDeviceCount`, `toggleLabels`) -/

/-- One entry of `this.devices` (a Map keyed by device name): the stored
record `{ mesh, info, visible }`, with the mesh abstracted to its Babylon
enabled flag (`mesh.setEnabled` / the internal `_isEnabled` state) and the
`info` abstracted to the fields the filter reads (`info.type`). -/
structure Device where
  name : String
  dtype : String
  visible : Bool
  meshEnabled : Bool
deriving DecidableEq

/-- One entry of `this.labels` (a Map keyed by device name): the label
plane, abstracted to its owner (the device name it is keyed under and whose
mesh it is parented to) and its Babylon enabled flag. -/
structure Label where
  owner : String
  enabled : Bool
deriving DecidableEq

/-- The mutable state of a `DeviceManager`: the `devices` and `labels`
maps, both insertion-ordered and keyed by name. -/
structure DMState where
  devices : List Device
  labels : List Label
deriving DecidableEq

/-- In the source, both `filterByCategories` (line 373) and `toggleLabels`
(line 389) guard the label with `label.parent.isEnabled`.  In Babylon.js,
`isEnabled` is a method of `Node`, and the source reads the property
without calling it, so the guard is an uncalled function reference, which
is always truthy; `setEnabled` then coerces it to `true`.  This constant
models that truthy value. -/
def isEnabledRef : Bool := true

/-- `DeviceManager.filterByCategories` (DeviceManager.js lines 360-376):
`showAll = categories.includes("all")`; for each device,
`shouldShow = showAll || categories.includes(device.info.type)` is written
to `device.visible` and to the mesh enabled flag; the label keyed by the
same name gets `setEnabled(shouldShow && label.parent.isEnabled)` (see
`isEnabledRef`).  Labels are updated here by owner lookup, mirroring the
`this.labels.get(name)` lookup inside the device loop. -/
def filterByCategories (categories : List String) (s : DMState) : DMState :=
  let showAll := categories.contains "all"
  { devices := s.devices.map (fun d =>
      let shouldShow := showAll || categories.contains d.dtype
      { d with visible := shouldShow, meshEnabled := shouldShow }),
    labels := s.labels.map (fun l =>
      match s.devices.find? (fun d => d.name == l.owner) with
      | some d => { l with enabled := (showAll || categories.contains d.dtype) && isEnabledRef }
      | none => l) }

/-- `DeviceManager.getVisibleDeviceCount` (lines 378-381). -/
def getVisibleDeviceCount (s : DMState) : Nat :=
  (s.devices.filter (fun d => d.visible)).length

/-- `DeviceManager.toggleLabels` (lines 387-391), as written in the source:
`label.setEnabled(show && label.parent.isEnabled)` where the guard is the
uncalled method reference `isEnabledRef`, so every label ends up with
enabled flag equal to the `show` argument, regardless of its parent mesh. -/
def toggleLabels (b : Bool) (s : DMState) : DMState :=
  { s with labels := s.labels.map (fun l => { l with enabled := b && isEnabledRef }) }

/-- `toggleLabels` as the source evidently intends it (and as the spec
describes it): `label.setEnabled(show && label.parent.isEnabled())`, with
the parent mesh enabled state actually read.  Used only to exhibit the
divergence between the source and the specified invariant. -/
def toggleLabelsCalled (b : Bool) (s : DMState) : DMState :=
  { s with labels := s.labels.map (fun l =>
      match s.devices.find? (fun d => d.name == l.owner) with
      | some d => { l with enabled := b && d.meshEnabled }
      | none => { l with enabled := b && isEnabledRef }) }

/-- A registry of 2 firewalls and 3 switches, as in the claim, with one
label per device (as `createDevice` produces). -/
def exampleRegistry : DMState :=
  { devices :=
      [{ name := "fw1", dtype := "firewall", visible := true, meshEnabled := true },
       { name := "fw2", dtype := "firewall", visible := true, meshEnabled := true },
       { name := "sw1", dtype := "switch", visible := true, meshEnabled := true },
       { name := "sw2", dtype := "switch", visible := true, meshEnabled := true },
       { name := "sw3", dtype := "switch", visible := true, meshEnabled := true }],
    labels :=
      [{ owner := "fw1", enabled := true }, { owner := "fw2", enabled := true },
       { owner := "sw1", enabled := true }, { owner := "sw2", enabled := true },
       { owner := "sw3", enabled := true }] }

/-- C2: after `filterByCategories(selected)`, a device is visible iff
`selected` contains `"all"` or contains the device type (exact match) —
stated as a Bool equation on every device of the post-state, whose `dtype`
field the filter leaves unchanged; and on a registry of 2 firewalls and 3
switches, `filterByCategories(["firewall"])` leaves
`getVisibleDeviceCount() = 2`. -/
theorem filterByCategories_visible_iff (s : DMState) (categories : List String)
    (d : Device) (hd : d ∈ (filterByCategories categories s).devices) :
    d.visible = (categories.contains "all" || categories.contains d.dtype) ∧
      getVisibleDeviceCount (filterByCategories ["firewall"] exampleRegistry) = 2 := by
  refine ⟨?_, by decide⟩
  simp only [filterByCategories, List.mem_map] at hd
  obtain ⟨d0, -, rfl⟩ := hd
  rfl

/-- C2, witness: the first firewall of the example registry after
`filterByCategories(["firewall"])`. -/
theorem filterByCategories_visible_iff_witness :
    ({ name := "fw1", dtype := "firewall", visible := true, meshEnabled := true } :
        Device).visible
        = (["firewall"].contains "all" ||
            ["firewall"].contains
              ({ name := "fw1", dtype := "firewall", visible := true,
                 meshEnabled := true } : Device).dtype) ∧
      getVisibleDeviceCount (filterByCategories ["firewall"] exampleRegistry) = 2 :=
  filterByCategories_visible_iff exampleRegistry ["firewall"]
    { name := "fw1", dtype := "firewall", visible := true, meshEnabled := true }
    (by decide)

/-- A one-device registry used to exhibit the C3 label bug: a single
firewall with its label, everything initially visible. -/
def c3Initial : DMState :=
  { devices := [{ name := "fw1", dtype := "firewall", visible := true, meshEnabled := true }],
    labels := [{ owner := "fw1", enabled := true }] }

/-- C3: the claim states that across every sequence of
`filterByCategories` and `toggleLabels` calls, a label is never enabled
while its parent device mesh is disabled.  The code violates this:
`filterByCategories(["switch"])` hides the firewall (mesh disabled), yet a
subsequent `toggleLabels(true)` re-enables its label, because the guard
`label.parent.isEnabled` is an uncalled method reference and hence always
truthy.  The intended guard (`toggleLabelsCalled`, which actually calls
`isEnabled`) would have left the label disabled, matching the claim. -/
theorem toggleLabels_enables_label_of_hidden_device :
    (toggleLabels true (filterByCategories ["switch"] c3Initial)).devices
        = [{ name := "fw1", dtype := "firewall", visible := false, meshEnabled := false }] ∧
      (toggleLabels true (filterByCategories ["switch"] c3Initial)).labels
        = [{ owner := "fw1", enabled := true }] ∧
      (toggleLabelsCalled true (filterByCategories ["switch"] c3Initial)).labels
        = [{ owner := "fw1", enabled := false }] := by decide

/-! ## Device descriptors and explicit-position resolution
(`DeviceManager.createDevice`, lines 133-142) -/

/-- An explicit `position` object on a descriptor; each coordinate may be
absent (`undefined` in the source).  Coordinates are modelled over `ℚ`,
where the float arithmetic the source performs on them (none, here) is
exact. -/
structure Pos where
  x : Option ℚ
  y : Option ℚ
  z : Option ℚ
deriving DecidableEq

/-- A device descriptor (`deviceInfo`), restricted to the fields the
embedded methods read: `name`, `type`, optional `mac`, optional
`position`. -/
structure Descriptor where
  name : String
  dtype : String
  mac : Option String
  position : Option Pos
deriving DecidableEq

/-- JavaScript `a || b` applied to an optional number `a`: yields `b` when
`a` is absent (`undefined`) or equal to `0` (both falsy), else `a`.  (`ℚ`
has no `NaN` or `-0`, the only other falsy numbers.) -/
def jsOrDefault (v : Option ℚ) (dflt : ℚ) : ℚ :=
  match v with
  | none => dflt
  | some q => if q = 0 then dflt else q

/-- Lines 134-139 of `createDevice`: when a descriptor carries an explicit
position, the mesh position is set to
`(position.x || 0, position.y || 1, position.z || 0)`. -/
def resolvePosition (p : Pos) : ℚ × ℚ × ℚ :=
  (jsOrDefault p.x 0, jsOrDefault p.y 1, jsOrDefault p.z 0)

/-- C10: the stored position applies a per-coordinate falsy default —
`x` and `z` default to `0` when absent or `0` (so an explicit `0` is
preserved in value), while `y` defaults to `1` when absent **or when
explicitly `0`**, silently replacing an explicit ground-level `y = 0`;
nonzero coordinates are always preserved unchanged. -/
theorem resolvePosition_falsy_defaults :
    (∀ p : Pos, p.y = some 0 → (resolvePosition p).2.1 = 1) ∧
      (∀ p : Pos, p.y = none → (resolvePosition p).2.1 = 1) ∧
      (∀ p : Pos, p.x = some 0 ∨ p.x = none → (resolvePosition p).1 = 0) ∧
      (∀ p : Pos, p.z = some 0 ∨ p.z = none → (resolvePosition p).2.2 = 0) ∧
      (∀ (p : Pos) (q : ℚ), q ≠ 0 → p.x = some q → (resolvePosition p).1 = q) ∧
      (∀ (p : Pos) (q : ℚ), q ≠ 0 → p.y = some q → (resolvePosition p).2.1 = q) ∧
      (∀ (p : Pos) (q : ℚ), q ≠ 0 → p.z = some q → (resolvePosition p).2.2 = q) := by
  refine ⟨?_, ?_, ?_, ?_, ?_, ?_, ?_⟩
  · intro p hp
    simp [resolvePosition, jsOrDefault, hp]
  · intro p hp
    simp [resolvePosition, jsOrDefault, hp]
  · rintro p (hp | hp) <;> simp [resolvePosition, jsOrDefault, hp]
  · rintro p (hp | hp) <;> simp [resolvePosition, jsOrDefault, hp]
  · intro p q hq hp
    simp [resolvePosition, jsOrDefault, hp, hq]
  · intro p q hq hp
    simp [resolvePosition, jsOrDefault, hp, hq]
  · intro p q hq hp
    simp [resolvePosition, jsOrDefault, hp, hq]

/-- C10, witness: a descriptor position `(3, 0, 0)` stores `y = 1`, the
explicit `y = 0` having been replaced. -/
theorem resolvePosition_falsy_defaults_witness :
    (resolvePosition { x := some 3, y := some 0, z := some 0 }).2.1 = 1 :=
  resolvePosition_falsy_defaults.1 { x := some 3, y := some 0, z := some 0 } rfl

/-! ## Endpoint subtype classification
(`DeviceManager.detectEndpointType`, lines 164-195) -/

/-- `String.prototype.toLowerCase()` on the ASCII strings involved
(device names and MAC addresses), character by character. -/
def jsToLower (s : String) : String :=
  String.mk (s.toList.map Char.toLower)

/-- Whether `pat` is an initial segment of `s`
(`String.prototype.startsWith`). -/
def listStarts : List Char → List Char → Bool
  | _, [] => true
  | [], _ :: _ => false
  | c :: cs, d :: ds => c == d && listStarts cs ds

/-- `String.prototype.startsWith` on the embedded strings. -/
def strStarts (s pat : String) : Bool :=
  listStarts s.toList pat.toList

/-- Whether `pat` occurs as a contiguous segment of `s`. -/
def listIncl (s pat : List Char) : Bool :=
  match s with
  | [] => listStarts [] pat
  | _ :: rest => listStarts s pat || listIncl rest pat

/-- `String.prototype.includes` on the embedded strings. -/
def strIncludes (s pat : String) : Bool :=
  listIncl s.toList pat.toList

/-- The `macVendors` table of `detectEndpointType` (lines 169-175), in
source (insertion) order. -/
def macVendors : List (String × List String) :=
  [("apple", ["28:cf:e9", "a4:c3:61", "40:a6:d9", "98:01:a7"]),
   ("samsung", ["e8:50:8b", "ac:c1:ee", "38:b1:db"]),
   ("dell", ["10:9a:dd", "18:03:73", "84:2b:2b"]),
   ("hp", ["28:cf:e9", "3c:d9:2b", "f0:4d:a5"]),
   ("lenovo", ["70:72:3c", "00:1a:6b", "f4:ce:46"])]

/-- The double loop of lines 177-183: the first vendor entry (in table
order) one of whose MAC vendor-prefix strings the lowercased MAC address
starts with, if any. -/
def macVendorFound (mac : String) : Option (String × List String) :=
  macVendors.find? (fun vp => vp.2.any (fun p => strStarts mac p))

/-- `DeviceManager.detectEndpointType` (lines 164-195): lowercases
`deviceInfo.name || ""` and `deviceInfo.mac || ""`; a MAC vendor-prefix
match returns `laptop` for the apple entry and `desktop` for any other
vendor; otherwise name keywords decide (laptop/notebook/macbook, then
desktop/pc/tower, then phone/mobile/iphone/android); otherwise the default
is `desktop`. -/
def detectEndpointType (d : Descriptor) : String :=
  let name := jsToLower d.name
  let mac := jsToLower (d.mac.getD "")
  match macVendorFound mac with
  | some vp => if vp.1 == "apple" then "laptop" else "desktop"
  | none =>
    if strIncludes name "laptop" || strIncludes name "notebook" || strIncludes name "macbook" then
      "laptop"
    else if strIncludes name "desktop" || strIncludes name "pc" || strIncludes name "tower" then
      "desktop"
    else if strIncludes name "phone" || strIncludes name "mobile" || strIncludes name "iphone" || strIncludes name "android" then
      "mobile"
    else
      "desktop"

/-- C6: `detectEndpointType` is total (always one of the three subtypes,
never a failure) and a deterministic function of the descriptor name and
MAC address only; a case-insensitive MAC vendor-prefix match decides the
subtype regardless of the name, name keyword groups are consulted only
when no MAC prefix matches (laptop keywords first, then desktop keywords,
then mobile keywords), and when nothing matches the default is
`desktop`. -/
theorem detectEndpointType_spec :
    (∀ d : Descriptor,
        detectEndpointType d = "laptop" ∨ detectEndpointType d = "desktop" ∨
          detectEndpointType d = "mobile") ∧
      (∀ d e : Descriptor, d.name = e.name → d.mac = e.mac →
        detectEndpointType d = detectEndpointType e) ∧
      (∀ (d : Descriptor) (vp : String × List String),
        macVendorFound (jsToLower (d.mac.getD "")) = some vp →
        detectEndpointType d = if vp.1 == "apple" then "laptop" else "desktop") ∧
      (∀ d : Descriptor,
        macVendorFound (jsToLower (d.mac.getD "")) = none →
        (strIncludes (jsToLower d.name) "laptop" || strIncludes (jsToLower d.name) "notebook" ||
            strIncludes (jsToLower d.name) "macbook") = true →
        detectEndpointType d = "laptop") ∧
      (∀ d : Descriptor,
        macVendorFound (jsToLower (d.mac.getD "")) = none →
        (strIncludes (jsToLower d.name) "laptop" || strIncludes (jsToLower d.name) "notebook" ||
            strIncludes (jsToLower d.name) "macbook") = false →
        (strIncludes (jsToLower d.name) "desktop" || strIncludes (jsToLower d.name) "pc" ||
            strIncludes (jsToLower d.name) "tower") = true →
        detectEndpointType d = "desktop") ∧
      (∀ d : Descriptor,
        macVendorFound (jsToLower (d.mac.getD "")) = none →
        (strIncludes (jsToLower d.name) "laptop" || strIncludes (jsToLower d.name) "notebook" ||
            strIncludes (jsToLower d.name) "macbook") = false →
        (strIncludes (jsToLower d.name) "desktop" || strIncludes (jsToLower d.name) "pc" ||
            strIncludes (jsToLower d.name) "tower") = false →
        (strIncludes (jsToLower d.name) "phone" || strIncludes (jsToLower d.name) "mobile" ||
            strIncludes (jsToLower d.name) "iphone" ||
            strIncludes (jsToLower d.name) "android") = true →
        detectEndpointType d = "mobile") ∧
      (∀ d : Descriptor,
        macVendorFound (jsToLower (d.mac.getD "")) = none →
        (strIncludes (jsToLower d.name) "laptop" || strIncludes (jsToLower d.name) "notebook" ||
            strIncludes (jsToLower d.name) "macbook") = false →
        (strIncludes (jsToLower d.name) "desktop" || strIncludes (jsToLower d.name) "pc" ||
            strIncludes (jsToLower d.name) "tower") = false →
        (strIncludes (jsToLower d.name) "phone" || strIncludes (jsToLower d.name) "mobile" ||
            strIncludes (jsToLower d.name) "iphone" ||
            strIncludes (jsToLower d.name) "android") = false →
        detectEndpointType d = "desktop") := by
  refine ⟨?_, ?_, ?_, ?_, ?_, ?_, ?_⟩
  · intro d
    simp only [detectEndpointType]
    split
    · split <;> simp
    · split
      · simp
      · split
        · simp
        · split <;> simp
  · intro d e h1 h2
    simp only [detectEndpointType, h1, h2]
  · intro d vp hm
    simp only [detectEndpointType, hm]
  · intro d hm hkw
    simp only [detectEndpointType, hm, hkw, if_true]
  · intro d hm h1 h2
    simp only [detectEndpointType, hm, h1, h2, Bool.false_eq_true, if_false, if_true]
  · intro d hm h1 h2 h3
    simp only [detectEndpointType, hm, h1, h2, h3, Bool.false_eq_true, if_false, if_true]
  · intro d hm h1 h2 h3
    simp only [detectEndpointType, hm, h1, h2, h3, Bool.false_eq_true, if_false]

/-- A sample endpoint: the MAC carries the apple vendor prefix (in upper
case) while the name suggests a phone. -/
def endpointSample : Descriptor :=
  { name := "Break-Room-Phone", dtype := "endpoint",
    mac := some "28:CF:E9:12:34:56", position := none }

/-- C6, witness: on `endpointSample`, the case-insensitive MAC
vendor-prefix match (apple) wins over the `phone` name keyword, yielding
`laptop`. -/
theorem detectEndpointType_spec_witness :
    detectEndpointType endpointSample
      = if (("apple", ["28:cf:e9", "a4:c3:61", "40:a6:d9", "98:01:a7"]) :
            String × List String).1 == "apple" then "laptop" else "desktop" :=
  detectEndpointType_spec.2.2.1 endpointSample
    ("apple", ["28:cf:e9", "a4:c3:61", "40:a6:d9", "98:01:a7"]) (by decide)

/-! ## Bulk device loading and the registry
(`DeviceManager.loadDevices` / `createDevice`, lines 38-50 and 93-162) -/

/-- JavaScript `Map.prototype.set` on an insertion-ordered association
list: if the key is present its value is replaced in place (keeping the
entry position), otherwise the pair is appended. -/
def mapSet {α : Type} (m : List (String × α)) (k : String) (v : α) : List (String × α) :=
  if m.any (fun p => p.1 == k) then
    m.map (fun p => if p.1 == k then (k, v) else p)
  else
    m ++ [(k, v)]

/-- The registry-relevant state mutated by `createDevice`: the `devices`
map (keyed by `deviceInfo.name`) and the list of meshes created in the
Babylon scene (recorded by owner name; the source never disposes a mesh,
so created meshes stay alive for the scene lifetime). -/
structure RegState where
  devices : List (String × Descriptor)
  sceneMeshes : List String
deriving DecidableEq

/-- A fresh `DeviceManager` registry. -/
def initialRegState : RegState :=
  { devices := [], sceneMeshes := [] }

/-- `DeviceManager.createDevice` (lines 93-162), with the visual-creation
steps abstracted by the failure oracle `fails`: the whole body is wrapped
in `try/catch`, so when visual creation throws (`fails d = true`, which
notably happens whenever a procedural fallback is needed, since the
`create*Model` builders are not defined in this file) the error is logged
and the state is unchanged; on success a new mesh is added to the scene
and `this.devices.set(deviceInfo.name, {...})` commits the entry.  Label
creation and interaction wiring are not modelled. -/
def createDevice (fails : Descriptor → Bool) (st : RegState) (d : Descriptor) : RegState :=
  if fails d then st
  else
    { devices := mapSet st.devices d.name d,
      sceneMeshes := st.sceneMeshes ++ [d.name] }

/-- `DeviceManager.loadDevices` (lines 38-50): awaits `createDevice` for
each descriptor in input order (the `preloadModels` call is modelled
separately, in the asset-cache section). -/
def loadDevices (fails : Descriptor → Bool) (st : RegState) (ds : List Descriptor) : RegState :=
  ds.foldl (createDevice fails) st

theorem mapSet_of_not_mem {α : Type} (m : List (String × α)) (k : String) (v : α)
    (h : m.any (fun p => p.1 == k) = false) : mapSet m k v = m ++ [(k, v)] := by
  simp [mapSet, h]

theorem mapSet_keys_nodup {α : Type} (m : List (String × α)) (k : String) (v : α)
    (h : (m.map Prod.fst).Nodup) : ((mapSet m k v).map Prod.fst).Nodup := by
  by_cases hany : m.any (fun p => p.1 == k) = true
  · have heq : (mapSet m k v).map Prod.fst = m.map Prod.fst := by
      simp only [mapSet, hany, if_true, List.map_map]
      refine List.map_congr_left ?_
      intro p hp
      simp only [Function.comp_apply]
      by_cases hk : p.1 = k
      · simp [hk]
      · simp [hk]
    rw [heq]
    exact h
  · have hfalse : m.any (fun p => p.1 == k) = false :=
      Bool.eq_false_iff.mpr hany
    have hk : k ∉ m.map Prod.fst := by
      intro hmem
      rcases List.mem_map.mp hmem with ⟨p, hp, hpk⟩
      have hture : m.any (fun p => p.1 == k) = true :=
        List.any_eq_true.mpr ⟨p, hp, by simp [hpk]⟩
      rw [hture] at hfalse
      cases hfalse
    have hd : (m.map Prod.fst).Disjoint [k] := by
      intro a ha hb
      rw [List.mem_singleton] at hb
      subst hb
      exact hk ha
    rw [mapSet_of_not_mem m k v hfalse, List.map_append]
    exact h.append (List.nodup_singleton k) hd

theorem loadDevices_devices_eq (fails : Descriptor → Bool) (ds : List Descriptor)
    (st : RegState) (hnd : (ds.map (fun d => d.name)).Nodup)
    (hdisj : ∀ d ∈ ds, st.devices.any (fun p => p.1 == d.name) = false) :
    (loadDevices fails st ds).devices
      = st.devices ++ (ds.filter (fun d => !fails d)).map (fun d => (d.name, d)) := by
  induction ds generalizing st with
  | nil => simp [loadDevices]
  | cons d ds ih =>
    have hnotmem : d.name ∉ ds.map (fun d => d.name) := (List.nodup_cons.mp hnd).1
    have hnd' : (ds.map (fun d => d.name)).Nodup := (List.nodup_cons.mp hnd).2
    simp only [loadDevices, List.foldl_cons]
    by_cases hf : fails d
    · have hcd : createDevice fails st d = st := by
        simp [createDevice, hf]
      rw [hcd]
      have hrec := ih st hnd' (fun e he => hdisj e (List.mem_cons_of_mem d he))
      simp only [loadDevices] at hrec
      rw [hrec]
      simp [List.filter_cons, hf]
    · have hany : st.devices.any (fun p => p.1 == d.name) = false :=
        hdisj d (List.mem_cons_self d ds)
      have hcd : createDevice fails st d
          = { devices := st.devices ++ [(d.name, d)],
              sceneMeshes := st.sceneMeshes ++ [d.name] } := by
        simp [createDevice, hf, mapSet_of_not_mem _ _ _ hany]
      rw [hcd]
      have hdisj' : ∀ e ∈ ds,
          (st.devices ++ [(d.name, d)]).any (fun p => p.1 == e.name) = false := by
        intro e he
        have h1 := hdisj e (List.mem_cons_of_mem d he)
        have h2 : ¬ d.name = e.name := by
          intro hEq
          exact hnotmem (hEq ▸ List.mem_map_of_mem _ he)
        simp [List.any_append, h1, h2]
      have hrec := ih { devices := st.devices ++ [(d.name, d)],
                        sceneMeshes := st.sceneMeshes ++ [d.name] } hnd' hdisj'
      simp only [loadDevices] at hrec
      rw [hrec]
      simp [List.filter_cons, hf, List.append_assoc]

/-- C5: a descriptor whose visual creation throws does not abort the
batch — `createDevice` catches the exception and `loadDevices` moves on —
so on a batch with pairwise-distinct names the registry afterwards holds
exactly the descriptors whose creation succeeded, committed in input
order. -/
theorem loadDevices_survives_failure (fails : Descriptor → Bool) (ds : List Descriptor)
    (hnd : (ds.map (fun d => d.name)).Nodup) :
    (loadDevices fails initialRegState ds).devices
      = (ds.filter (fun d => !fails d)).map (fun d => (d.name, d)) := by
  have h := loadDevices_devices_eq fails ds initialRegState hnd (fun d hd => rfl)
  simpa [initialRegState] using h

/-- A well-formed firewall descriptor used in concrete batches. -/
def batchA : Descriptor :=
  { name := "fw1", dtype := "firewall", mac := none, position := none }

/-- A descriptor whose creation throws in the concrete C5 batch. -/
def batchBad : Descriptor :=
  { name := "bad", dtype := "firewall", mac := none, position := none }

/-- A well-formed switch descriptor used in concrete batches. -/
def batchC : Descriptor :=
  { name := "sw1", dtype := "switch", mac := none, position := none }

/-- Failure oracle for the C5 witness: only the descriptor named `bad`
throws during visual creation. -/
def failsBadName (d : Descriptor) : Bool :=
  d.name == "bad"

/-- C5, witness: a 3-descriptor batch whose middle descriptor throws still
commits the other two, in input order. -/
theorem loadDevices_survives_failure_witness :
    (loadDevices failsBadName initialRegState [batchA, batchBad, batchC]).devices
      = ([batchA, batchBad, batchC].filter (fun d => !failsBadName d)).map
          (fun d => (d.name, d)) :=
  loadDevices_survives_failure failsBadName [batchA, batchBad, batchC] (by decide)

/-- First descriptor of the C8 duplicate-name batch. -/
def dupFirst : Descriptor :=
  { name := "fw-a", dtype := "firewall", mac := none, position := none }

/-- Second descriptor of the C8 duplicate-name batch: same name, different
type. -/
def dupSecond : Descriptor :=
  { name := "fw-a", dtype := "switch", mac := none, position := none }

/-- Failure oracle under which every visual creation succeeds. -/
def neverFails (_ : Descriptor) : Bool := false

/-- C8, counterexample: loading two descriptors with the same name leaves
a single registry entry (`Map.set` replaces it), but the first mesh is
never disposed — after the batch, two meshes created under the name
`fw-a` are alive in the scene, contradicting the claim that a reload never
leaves two visuals alive under one name. -/
theorem duplicate_name_keeps_old_visual_alive :
    (loadDevices neverFails initialRegState [dupFirst, dupSecond]).devices.length = 1 ∧
      ¬ ((loadDevices neverFails initialRegState
            [dupFirst, dupSecond]).sceneMeshes.count "fw-a" ≤ 1) := by decide

/-- C8, amended: device names are unique keys of the registry — starting
from a registry with pairwise-distinct keys, any `loadDevices` batch
(duplicate names included) leaves the keys pairwise distinct, a reload
replacing the prior registry entry in place; but the prior visual is not
disposed, so two meshes can be alive under one name
(`duplicate_name_keeps_old_visual_alive`). -/
theorem loadDevices_registry_keys_nodup (fails : Descriptor → Bool) (ds : List Descriptor)
    (st : RegState) (h : (st.devices.map Prod.fst).Nodup) :
    ((loadDevices fails st ds).devices.map Prod.fst).Nodup := by
  induction ds generalizing st with
  | nil => simpa [loadDevices]
  | cons d ds ih =>
    simp only [loadDevices, List.foldl_cons]
    have hstep : ((createDevice fails st d).devices.map Prod.fst).Nodup := by
      by_cases hf : fails d
      · simpa [createDevice, hf]
      · simp only [createDevice, hf, Bool.false_eq_true, if_false]
        exact mapSet_keys_nodup st.devices d.name d h
    have hrec := ih (createDevice fails st d) hstep
    simpa [loadDevices] using hrec

/-- C8, witness for the amended statement: the duplicate-name batch starts
from the empty registry and ends with pairwise-distinct keys. -/
theorem loadDevices_registry_keys_nodup_witness :
    ((loadDevices neverFails initialRegState
        [dupFirst, dupSecond]).devices.map Prod.fst).Nodup :=
  loadDevices_registry_keys_nodup neverFails [dupFirst, dupSecond] initialRegState (by decide)

/-! ## 3D-model preloading and the asset cache
(`DeviceManager.preloadModels`, lines 68-91, and the cache reads of
`createDevice`, lines 98-111) -/

/-- The asset-cache state of a `DeviceManager`: the `loadedModels` map
(value `some ()` for a successfully imported template mesh, `none` for the
`null` failure sentinel) plus a log of the asset fetches issued
(`BABYLON.SceneLoader.ImportMeshAsync` calls), one entry per fetch, keyed
by device type. -/
structure AssetState where
  loadedModels : List (String × Option Unit)
  fetchLog : List String
deriving DecidableEq

/-- A fresh `DeviceManager` asset cache (constructor, line 35). -/
def initialAssetState : AssetState :=
  { loadedModels := [], fetchLog := [] }

/-- The `modelPaths` table of `preloadModels` (lines 69-78), in source
order. -/
def modelPaths : List (String × String) :=
  [("firewall", "assets/models/fortigate-61e.glb"),
   ("switch", "assets/models/fortiswitch-124e-poe.glb"),
   ("access_point", "assets/models/fortiap-231f.glb"),
   ("router", "assets/models/router.glb"),
   ("endpoint-laptop", "assets/models/endpoint-laptop.glb"),
   ("endpoint-desktop", "assets/models/endpoint-desktop.glb"),
   ("endpoint-mobile", "assets/models/endpoint-mobile.glb"),
   ("endpoint-server", "assets/models/endpoint-server.glb")]

/-- `DeviceManager.preloadModels` (lines 68-91): for **every** entry of
`modelPaths`, unconditionally issue a fetch (there is no cache check) and
store the outcome — the loaded template on success, the `null` sentinel on
failure — under the type key.  The `outcome` oracle abstracts whether the
`ImportMeshAsync` call for a key succeeds. -/
def preloadModels (outcome : String → Option Unit) (s : AssetState) : AssetState :=
  modelPaths.foldl
    (fun st kv =>
      { loadedModels := mapSet st.loadedModels kv.1 (outcome kv.1),
        fetchLog := st.fetchLog ++ [kv.1] })
    s

/-- The model key `createDevice` consults (lines 98-111):
`endpoint-<subtype>` for endpoints, the raw type otherwise. -/
def typeKeyOf (d : Descriptor) : String :=
  if d.dtype == "endpoint" then "endpoint-" ++ detectEndpointType d else d.dtype

/-- `Map.prototype.get` on the association-list maps. -/
def lookupValue {α : Type} (m : List (String × α)) (k : String) : Option α :=
  (m.find? (fun p => p.1 == k)).map Prod.snd

/-- The asset interaction of `createDevice` (lines 103-111): it only reads
the cache — `loadedModels.has(key) && loadedModels.get(key)` selects the
template path, anything else (including a cached `null` failure) the
procedural fallback — and never issues a fetch.  Returns the unchanged
state and whether a loaded template is used. -/
def createDeviceResolve (s : AssetState) (k : String) : AssetState × Bool :=
  (s, match lookupValue s.loadedModels k with
      | some (some _) => true
      | _ => false)

/-- The asset-cache footprint of one `loadDevices` call (lines 38-50): an
unconditional `preloadModels`, then one cache read per descriptor. -/
def loadDevicesAssets (outcome : String → Option Unit) (ds : List Descriptor)
    (s : AssetState) : AssetState :=
  ds.foldl (fun st d => (createDeviceResolve st (typeKeyOf d)).1) (preloadModels outcome s)

/-- The fetch-failure oracle under which every import fails. -/
def allLoadsFail : String → Option Unit := fun _ => none

/-- C4, counterexample: the claim bounds the fetches per type key by one
per process lifetime across all `loadDevices`/`preloadModels` calls, but
`preloadModels` has no cache check, so a second `loadDevices` call
re-fetches every key: after two calls the `firewall` key has been fetched
twice. -/
theorem preloadModels_refetches_on_second_call :
    ¬ ((loadDevicesAssets allLoadsFail []
          (loadDevicesAssets allLoadsFail [] initialAssetState)).fetchLog.count "firewall"
        ≤ 1) := by decide

theorem foldl_preload_fetchLog (outcome : String → Option Unit)
    (l : List (String × String)) (s : AssetState) :
    (l.foldl
        (fun st kv =>
          { loadedModels := mapSet st.loadedModels kv.1 (outcome kv.1),
            fetchLog := st.fetchLog ++ [kv.1] })
        s).fetchLog
      = s.fetchLog ++ l.map Prod.fst := by
  induction l generalizing s with
  | nil => simp
  | cons kv l ih => simp [List.foldl_cons, ih, List.append_assoc]

set_option maxHeartbeats 1000000 in
/-- C4, amended: **within one** `loadDevices`/`preloadModels` call, each
key of the model table is fetched exactly once and the outcome (template
or failure sentinel) is memoized in `loadedModels` under its key; device
creation never fetches — a cached failure just routes to the procedural
fallback — so the per-key fetch bound is one per call, not one per
process lifetime (`preloadModels_refetches_on_second_call`). -/
theorem preloadModels_fetch_semantics (outcome : String → Option Unit) (s : AssetState)
    (k : String) (ds : List Descriptor) :
    (preloadModels outcome s).fetchLog.count k
        = s.fetchLog.count k + (if k ∈ modelPaths.map Prod.fst then 1 else 0) ∧
      (loadDevicesAssets outcome ds s).fetchLog = (preloadModels outcome s).fetchLog ∧
      (preloadModels outcome initialAssetState).loadedModels
        = modelPaths.map (fun kv => (kv.1, outcome kv.1)) := by
  refine ⟨?_, ?_, rfl⟩
  · rw [preloadModels, foldl_preload_fetchLog, List.count_append]
    have hnodup : (modelPaths.map Prod.fst).Nodup := by decide
    by_cases hk : k ∈ modelPaths.map Prod.fst
    · rw [List.count_eq_one_of_mem hnodup hk, if_pos hk]
    · rw [List.count_eq_zero_of_not_mem hk, if_neg hk]
  · have hid : ∀ (l : List Descriptor) (b : AssetState),
        l.foldl (fun st d => (createDeviceResolve st (typeKeyOf d)).1) b = b := by
      intro l
      induction l with
      | nil => intro b; rfl
      | cons d l ih =>
        intro b
        simp only [List.foldl_cons]
        exact ih b
    simp [loadDevicesAssets, hid]

/-! ## Connections (`ConnectionManager`, and `loadConnections` from the
spec) -/

/-- A 3D point, over `ℚ` (the float arithmetic of the source — two
additions and a halving — is exact on the dyadic coordinates involved;
the fixed elevation `0.1` is modelled by the exact constant `1/10`). -/
structure Vec3 where
  x : ℚ
  y : ℚ
  z : ℚ
deriving DecidableEq

/-- A device mesh as `createConnection` sees it: its scene name and its
current position. -/
structure MeshRef where
  name : String
  position : Vec3
deriving DecidableEq

/-- One entry of `this.connections`: the record
`{ mesh1, mesh2, line, visible }` pushed by `createConnection`, with the
rendered line abstracted to its point list. -/
structure Connection where
  mesh1 : String
  mesh2 : String
  line : List Vec3
  visible : Bool
deriving DecidableEq

/-- The state of a `ConnectionManager`: its `connections` array. -/
structure ConnState where
  connections : List Connection
deriving DecidableEq

/-- A fresh `ConnectionManager`. -/
def initialConnState : ConnState :=
  { connections := [] }

/-- `ConnectionManager.createConnection` (part_001 lines 8-38): pushes a
connection whose line is the 3-point polyline
`[mesh1.position, ((x1+x2)/2, 0.1, (z1+z2)/2), mesh2.position]`, computed
from the endpoint positions at call time. -/
def createConnection (st : ConnState) (mesh1 mesh2 : MeshRef) : ConnState :=
  { st with connections := st.connections ++
      [{ mesh1 := mesh1.name, mesh2 := mesh2.name,
         line := [mesh1.position,
                  { x := (mesh1.position.x + mesh2.position.x) / 2,
                    y := 1 / 10,
                    z := (mesh1.position.z + mesh2.position.z) / 2 },
                  mesh2.position],
         visible := true }] }

/-- `ConnectionManager.getConnectionCount` (part_001 lines 49-51). -/
def getConnectionCount (st : ConnState) : Nat :=
  st.connections.length

/-- The line of the most recently created connection (empty when no
connection exists). -/
def lastConnectionLine (st : ConnState) : List Vec3 :=
  (st.connections.getLast?.map (fun c => c.line)).getD []

/-- C9: `createConnection` appends exactly one connection whose geometry
is the 3-point polyline `[A, midpoint, B]` — the midpoint averaging the
endpoint `x` and `z` coordinates at the fixed elevation `1/10` — and that
geometry is a pure function of the two endpoint positions: recomputing
from meshes with the same positions (in any connection-manager state)
yields the same polyline. -/
theorem createConnection_polyline (st st' : ConnState) (mesh1 mesh2 n1 n2 : MeshRef)
    (h1 : n1.position = mesh1.position) (h2 : n2.position = mesh2.position) :
    lastConnectionLine (createConnection st mesh1 mesh2)
        = [mesh1.position,
           { x := (mesh1.position.x + mesh2.position.x) / 2,
             y := 1 / 10,
             z := (mesh1.position.z + mesh2.position.z) / 2 },
           mesh2.position] ∧
      lastConnectionLine (createConnection st' n1 n2)
        = lastConnectionLine (createConnection st mesh1 mesh2) ∧
      getConnectionCount (createConnection st mesh1 mesh2)
        = getConnectionCount st + 1 := by
  refine ⟨?_, ?_, ?_⟩
  · simp [lastConnectionLine, createConnection, List.getLast?_concat]
  · simp [lastConnectionLine, createConnection, List.getLast?_concat, h1, h2]
  · simp [getConnectionCount, createConnection]

/-- Two sample meshes for the C9 witness. -/
def meshA : MeshRef :=
  { name := "FortiGate-100F", position := { x := 0, y := 2, z := 0 } }

/-- Second sample mesh for the C9 witness. -/
def meshB : MeshRef :=
  { name := "FortiSwitch-148F", position := { x := -8, y := 1, z := 0 } }

/-- C9, witness: the polyline of a concrete connection, and its
recomputation from the same two positions. -/
theorem createConnection_polyline_witness :
    lastConnectionLine (createConnection initialConnState meshA meshB)
        = [meshA.position,
           { x := (meshA.position.x + meshB.position.x) / 2,
             y := 1 / 10,
             z := (meshA.position.z + meshB.position.z) / 2 },
           meshB.position] ∧
      lastConnectionLine (createConnection initialConnState meshA meshB)
        = lastConnectionLine (createConnection initialConnState meshA meshB) ∧
      getConnectionCount (createConnection initialConnState meshA meshB)
        = getConnectionCount initialConnState + 1 :=
  createConnection_polyline initialConnState initialConnState meshA meshB meshA meshB
    rfl rfl

/-- `Map`-style name resolution against the device registry (a mesh per
registered device name). -/
def lookupMesh (reg : List MeshRef) (n : String) : Option MeshRef :=
  reg.find? (fun m => m.name == n)

/-- Modelled from the spec: `ConnectionManager.loadConnections` is called
by `loadTopologyData` (DeviceManager.js lines 726-731) but its body is not
among the source files (part_001 defines only `createConnection`,
`toggleVisibility` and `getConnectionCount`).  Per spec §4.6, each
`{from, to}` pair is resolved against the device registry; a pair either
of whose endpoint names is unknown is skipped non-fatally (logged), and
each pair with both endpoints resolvable produces a connection via
`createConnection`. -/
def loadConnections (reg : List MeshRef) (pairs : List (String × String))
    (st : ConnState) : ConnState :=
  pairs.foldl
    (fun acc pr =>
      match lookupMesh reg pr.1, lookupMesh reg pr.2 with
      | some a, some b => createConnection acc a b
      | _, _ => acc)
    st

/-- C7: `loadConnections` is total — unresolvable pairs are skipped, not
fatal — and afterwards `getConnectionCount` counts exactly the pairs both
of whose endpoint names resolve against the registry, each such pair
having produced one connection. -/
theorem loadConnections_count (reg : List MeshRef) (pairs : List (String × String))
    (st : ConnState) :
    getConnectionCount (loadConnections reg pairs st)
      = getConnectionCount st
        + (pairs.filter
            (fun pr => (lookupMesh reg pr.1).isSome && (lookupMesh reg pr.2).isSome)).length := by
  induction pairs generalizing st with
  | nil => simp [loadConnections]
  | cons pr ps ih =>
    simp only [loadConnections, List.foldl_cons]
    cases h1 : lookupMesh reg pr.1 with
    | none =>
      have hrec := ih st
      simp only [loadConnections] at hrec
      simp [h1, hrec, List.filter_cons]
    | some a =>
      cases h2 : lookupMesh reg pr.2 with
      | none =>
        have hrec := ih st
        simp only [loadConnections] at hrec
        simp [h1, h2, hrec, List.filter_cons]
      | some b =>
        have hrec := ih (createConnection st a b)
        simp only [loadConnections] at hrec
        simp only [h1, h2]
        rw [hrec]
        simp [getConnectionCount, createConnection, List.filter_cons, h1, h2]
        omega

end NetViz
